import Mathlib

/-!
A verification development for the `test-gsmtc` diagnostic tool.

The tool is a one-shot "introspect and print" program over the host
platform global media transport-control session.  We model the platform
as a record of fallible reads (`Except String α`: `Except.error` is a
failed platform call carrying its display text, mirroring the fallible
`windows::core::Result` values of the source), and each printer as a pure function from
the session snapshot and an indentation depth to the list of stdout lines
it emits together with how it finished:

* `PrintResult.ok`       — the routine returned `Ok(())`;
* `PrintResult.error e`  — the routine returned early with error `e`
                           (the `?` operator of the source);
* `PrintResult.aborted`  — the routine hit `unreachable!()`, which kills
                           the whole process.

The playback rate is an `f64` printed with two decimals in the source; we
model the platform as supplying the already-rendered decimal text, since
no property under study depends on float arithmetic, only on whether the
line is emitted.
-/

inductive PrintResult where
  | ok
  | error (e : String)
  | aborted
deriving DecidableEq

/-- The 15 boolean capability getters of
`GlobalSystemMediaTransportControlsSessionPlaybackControls`, each fallible. -/
structure PlaybackControls where
  isChannelDownEnabled : Except String Bool
  isChannelUpEnabled : Except String Bool
  isFastForwardEnabled : Except String Bool
  isNextEnabled : Except String Bool
  isPauseEnabled : Except String Bool
  isPlaybackPositionEnabled : Except String Bool
  isPlaybackRateEnabled : Except String Bool
  isPlayEnabled : Except String Bool
  isPlayPauseToggleEnabled : Except String Bool
  isPreviousEnabled : Except String Bool
  isRecordEnabled : Except String Bool
  isRepeatEnabled : Except String Bool
  isRewindEnabled : Except String Bool
  isShuffleEnabled : Except String Bool
  isStopEnabled : Except String Bool

/-- The 15 flags once every getter has succeeded. -/
structure FetchedControls where
  is_channel_down_enabled : Bool
  is_channel_up_enabled : Bool
  is_fast_forward_enabled : Bool
  is_next_enabled : Bool
  is_pause_enabled : Bool
  is_playback_position_enabled : Bool
  is_playback_rate_enabled : Bool
  is_play_enabled : Bool
  is_play_pause_toggle_enabled : Bool
  is_previous_enabled : Bool
  is_record_enabled : Bool
  is_repeat_enabled : Bool
  is_rewind_enabled : Bool
  is_shuffle_enabled : Bool
  is_stop_enabled : Bool

/-- The playback-info snapshot.  `autoRepeatMode`, `isShuffleActive`,
`playbackRate` and `playbackType` model `X().and_then(|v| v.Value())`:
the two fallible steps of reading an optional reference collapse into one
`Except`.  `playbackRate` carries the `{:.02}`-rendered text. -/
structure PlaybackInfo where
  autoRepeatMode : Except String Int
  controls : Except String PlaybackControls
  isShuffleActive : Except String Bool
  playbackRate : Except String String
  playbackStatus : Except String Int
  playbackType : Except String Int

/-- The opened thumbnail stream: the two attributes the program reads. -/
structure Thumbnail where
  contentType : Except String String
  size : Except String Nat

/-- The media-properties snapshot.  `playbackType` models
`PlaybackType()?.Value()?.0`; `thumbnail` models
`Thumbnail()?.OpenReadAsync()?.await?`. -/
structure MediaProperties where
  albumArtist : Except String String
  albumTitle : Except String String
  albumTrackCount : Except String Int
  artist : Except String String
  genres : Except String (List String)
  playbackType : Except String Int
  subtitle : Except String String
  thumbnail : Except String Thumbnail
  title : Except String String
  trackNumber : Except String Int

/-- Media fields after the fetch phase succeeded. -/
structure FetchedMedia where
  album_artist : String
  album_title : String
  album_track_count : Int
  artist : String
  genres : List String
  playback_type : Int
  subtitle : String
  thumbnail : Thumbnail
  title : String
  track_number : Int

/-- The timeline snapshot: the five `Duration`-valued reads as nanosecond
counts, and `LastUpdatedTime` as the raw `UniversalTime` integer. -/
structure TimelineProperties where
  startTime : Except String Nat
  endTime : Except String Nat
  maxSeekTime : Except String Nat
  minSeekTime : Except String Nat
  position : Except String Nat
  lastUpdatedTime : Except String Int

/-- Timeline fields after the fetch phase succeeded. -/
structure FetchedTimeline where
  start_time : Nat
  end_time : Nat
  max_seek_time : Nat
  min_seek_time : Nat
  position : Nat
  last_updated_time : Int

/-- The current session: the four reads the program performs on it. -/
structure Session where
  sourceAppUserModelId : Except String String
  mediaProperties : Except String MediaProperties
  playbackInfo : Except String PlaybackInfo
  timelineProperties : Except String TimelineProperties

/-- The session manager obtained from `RequestAsync()?.await?`. -/
structure SessionManager where
  getCurrentSession : Except String Session

/-- The platform: the one ambient call `main` starts from. -/
structure Platform where
  requestManager : Except String SessionManager

/-- The line prefix: `" ".chars().cycle().take(depth * 4).collect::<String>()`. -/
def indent (depth : Nat) : String :=
  String.mk (List.replicate (depth * 4) ' ')

/-- Number of leading space characters of a line. -/
def leadingSpaces (s : String) : Nat :=
  (s.data.takeWhile (fun c => c == ' ')).length

/-- A line with its leading spaces removed. -/
def stripIndent (s : String) : String :=
  String.mk (s.data.dropWhile (fun c => c == ' '))

/-- Rendering table for the auto-repeat mode: arms 0/1/2 give None/Track/List,
and `none` models the `unreachable` arm. -/
def autoRepeatModeStr (t : Int) : Option String :=
  if t = 0 then some "None"
  else if t = 1 then some "Track"
  else if t = 2 then some "List"
  else none

/-- Rendering table for the playback status: arms 0..5 give Closed, Opened,
Changing, Stopped, Playing, Paused, and `none` models the `unreachable` arm. -/
def playbackStatusStr (t : Int) : Option String :=
  if t = 0 then some "Closed"
  else if t = 1 then some "Opened"
  else if t = 2 then some "Changing"
  else if t = 3 then some "Stopped"
  else if t = 4 then some "Playing"
  else if t = 5 then some "Paused"
  else none

/-- Rendering table of `fn playback_type_str(t: i32)`. -/
def playback_type_str (t : Int) : Option String :=
  if t = 0 then some "Unknown"
  else if t = 1 then some "Music"
  else if t = 2 then some "Video"
  else if t = 3 then some "Image"
  else none

/-- The 15 `?`-reads at the top of `print_playback_controls`, in source
order. -/
def fetchControls (c : PlaybackControls) : Except String FetchedControls :=
  match c.isChannelDownEnabled with
  | .error e => .error e
  | .ok v1 =>
  match c.isChannelUpEnabled with
  | .error e => .error e
  | .ok v2 =>
  match c.isFastForwardEnabled with
  | .error e => .error e
  | .ok v3 =>
  match c.isNextEnabled with
  | .error e => .error e
  | .ok v4 =>
  match c.isPauseEnabled with
  | .error e => .error e
  | .ok v5 =>
  match c.isPlaybackPositionEnabled with
  | .error e => .error e
  | .ok v6 =>
  match c.isPlaybackRateEnabled with
  | .error e => .error e
  | .ok v7 =>
  match c.isPlayEnabled with
  | .error e => .error e
  | .ok v8 =>
  match c.isPlayPauseToggleEnabled with
  | .error e => .error e
  | .ok v9 =>
  match c.isPreviousEnabled with
  | .error e => .error e
  | .ok v10 =>
  match c.isRecordEnabled with
  | .error e => .error e
  | .ok v11 =>
  match c.isRepeatEnabled with
  | .error e => .error e
  | .ok v12 =>
  match c.isRewindEnabled with
  | .error e => .error e
  | .ok v13 =>
  match c.isShuffleEnabled with
  | .error e => .error e
  | .ok v14 =>
  match c.isStopEnabled with
  | .error e => .error e
  | .ok v15 =>
    .ok ⟨v1, v2, v3, v4, v5, v6, v7, v8, v9, v10, v11, v12, v13, v14, v15⟩

/-- The 15 `println!` lines of `print_playback_controls`, in source order. -/
def printControlsFetched (depth : Nat) (f : FetchedControls) : List String :=
  [indent depth ++ ("is_channel_down_enabled: " ++ toString f.is_channel_down_enabled),
   indent depth ++ ("is_channel_up_enabled: " ++ toString f.is_channel_up_enabled),
   indent depth ++ ("is_fast_forward_enabled: " ++ toString f.is_fast_forward_enabled),
   indent depth ++ ("is_next_enabled: " ++ toString f.is_next_enabled),
   indent depth ++ ("is_pause_enabled: " ++ toString f.is_pause_enabled),
   indent depth ++ ("is_playback_position_enabled: " ++ toString f.is_playback_position_enabled),
   indent depth ++ ("is_playback_rate_enabled: " ++ toString f.is_playback_rate_enabled),
   indent depth ++ ("is_play_enabled: " ++ toString f.is_play_enabled),
   indent depth ++ ("is_play_pause_toggle_enabled: " ++ toString f.is_play_pause_toggle_enabled),
   indent depth ++ ("is_previous_enabled: " ++ toString f.is_previous_enabled),
   indent depth ++ ("is_record_enabled: " ++ toString f.is_record_enabled),
   indent depth ++ ("is_repeat_enabled: " ++ toString f.is_repeat_enabled),
   indent depth ++ ("is_rewind_enabled: " ++ toString f.is_rewind_enabled),
   indent depth ++ ("is_shuffle_enabled: " ++ toString f.is_shuffle_enabled),
   indent depth ++ ("is_stop_enabled: " ++ toString f.is_stop_enabled)]

/-- Model of `fn print_playback_controls(controls, depth)`: all 15 flags are read
with `?` before any line is printed. -/
def print_playback_controls (c : PlaybackControls) (depth : Nat) :
    List String × PrintResult :=
  match fetchControls c with
  | .error e => ([], .error e)
  | .ok f => (printControlsFetched depth f, .ok)

/-- Sequencing of two print steps: the second runs only if the first
finished `ok` (an early `return Err` or a panic stops the routine). -/
def pseq (a b : List String × PrintResult) : List String × PrintResult :=
  match a with
  | (out, .ok) => (out ++ b.1, b.2)
  | (out, r) => (out, r)

/-- The `if let Ok(auto_repeat_mode) = ...` block of `print_playback_info`. -/
def autoRepeatLine (depth : Nat) (v : Except String Int) :
    List String × PrintResult :=
  match v with
  | .error _ => ([], .ok)
  | .ok t =>
    match autoRepeatModeStr t with
    | none => ([], .aborted)
    | some nm => ([indent depth ++ ("auto_repeat_mode: \"" ++ (nm ++ "\""))], .ok)

/-- The `if let Ok(controls) = playback_info.Controls()` block: prints the
`controls:` header, then delegates with `print_playback_controls(..)?` —
note the `?`: a failing flag read propagates out of `print_playback_info`. -/
def controlsSection (depth : Nat) (c : Except String PlaybackControls) :
    List String × PrintResult :=
  match c with
  | .error _ => ([], .ok)
  | .ok ctrl =>
    match print_playback_controls ctrl (depth + 1) with
    | (out, r) => ((indent depth ++ "controls:") :: out, r)

/-- The `if let Ok(is_shuffle_active) = ...` block. -/
def shuffleLine (depth : Nat) (v : Except String Bool) :
    List String × PrintResult :=
  match v with
  | .error _ => ([], .ok)
  | .ok b => ([indent depth ++ ("is_shuffle_active: " ++ toString b)], .ok)

/-- The `if let Ok(playback_rate) = ...` block (`{:.02}` text supplied by
the platform model). -/
def rateLine (depth : Nat) (v : Except String String) :
    List String × PrintResult :=
  match v with
  | .error _ => ([], .ok)
  | .ok r => ([indent depth ++ ("playback_rate: " ++ r)], .ok)

/-- The `if let Ok(playback_status) = ...` block; an out-of-range status
hits `unreachable!()` while the format arguments are evaluated, so no line
is emitted and the process dies. -/
def statusLine (depth : Nat) (v : Except String Int) :
    List String × PrintResult :=
  match v with
  | .error _ => ([], .ok)
  | .ok t =>
    match playbackStatusStr t with
    | none => ([], .aborted)
    | some nm => ([indent depth ++ ("playback_status: \"" ++ (nm ++ "\""))], .ok)

/-- The `if let Ok(playback_type) = ...` block (quoted in this printer). -/
def typeLine (depth : Nat) (v : Except String Int) :
    List String × PrintResult :=
  match v with
  | .error _ => ([], .ok)
  | .ok t =>
    match playback_type_str t with
    | none => ([], .aborted)
    | some nm => ([indent depth ++ ("playback_type: \"" ++ (nm ++ "\""))], .ok)

/-- Model of `fn print_playback_info(session, depth)`. -/
def print_playback_info (s : Session) (depth : Nat) :
    List String × PrintResult :=
  match s.playbackInfo with
  | .error e => ([], .error e)
  | .ok info =>
    pseq (autoRepeatLine depth info.autoRepeatMode)
      (pseq (controlsSection depth info.controls)
        (pseq (shuffleLine depth info.isShuffleActive)
          (pseq (rateLine depth info.playbackRate)
            (pseq (statusLine depth info.playbackStatus)
              (typeLine depth info.playbackType)))))

/-- The six `?`-reads of `print_timeline_properties`, in source order. -/
def fetchTimeline (t : TimelineProperties) : Except String FetchedTimeline :=
  match t.startTime with
  | .error e => .error e
  | .ok v1 =>
  match t.endTime with
  | .error e => .error e
  | .ok v2 =>
  match t.maxSeekTime with
  | .error e => .error e
  | .ok v3 =>
  match t.minSeekTime with
  | .error e => .error e
  | .ok v4 =>
  match t.position with
  | .error e => .error e
  | .ok v5 =>
  match t.lastUpdatedTime with
  | .error e => .error e
  | .ok v6 => .ok ⟨v1, v2, v3, v4, v5, v6⟩

/-- The six `println!` lines of `print_timeline_properties`. -/
def printTimelineFetched (depth : Nat) (f : FetchedTimeline) : List String :=
  [indent depth ++ ("start_time: " ++ toString f.start_time),
   indent depth ++ ("end_time: " ++ toString f.end_time),
   indent depth ++ ("max_seek_time: " ++ toString f.max_seek_time),
   indent depth ++ ("min_seek_time: " ++ toString f.min_seek_time),
   indent depth ++ ("position: " ++ toString f.position),
   indent depth ++ ("last_updated_time: " ++ toString f.last_updated_time)]

/-- Model of `fn print_timeline_properties(session, depth)`: the snapshot and all
six fields are read with `?` before any line is printed. -/
def print_timeline_properties (s : Session) (depth : Nat) :
    List String × PrintResult :=
  match s.timelineProperties with
  | .error e => ([], .error e)
  | .ok tp =>
    match fetchTimeline tp with
    | .error e => ([], .error e)
    | .ok f => (printTimelineFetched depth f, .ok)

/-- The ten `?`-reads of `print_media_properties` after the snapshot
itself, in source order. -/
def fetchMedia (mp : MediaProperties) : Except String FetchedMedia :=
  match mp.albumArtist with
  | .error e => .error e
  | .ok v1 =>
  match mp.albumTitle with
  | .error e => .error e
  | .ok v2 =>
  match mp.albumTrackCount with
  | .error e => .error e
  | .ok v3 =>
  match mp.artist with
  | .error e => .error e
  | .ok v4 =>
  match mp.genres with
  | .error e => .error e
  | .ok v5 =>
  match mp.playbackType with
  | .error e => .error e
  | .ok v6 =>
  match mp.subtitle with
  | .error e => .error e
  | .ok v7 =>
  match mp.thumbnail with
  | .error e => .error e
  | .ok v8 =>
  match mp.title with
  | .error e => .error e
  | .ok v9 =>
  match mp.trackNumber with
  | .error e => .error e
  | .ok v10 => .ok ⟨v1, v2, v3, v4, v5, v6, v7, v8, v9, v10⟩

/-- One genre bullet line: `println!("{prefix}     - \"{genre}\"")` —
five literal spaces after the prefix, then the bullet. -/
def genreBullet (depth : Nat) (g : String) : String :=
  indent depth ++ ("     - \"" ++ (g ++ "\""))

/-- The lines printed before the `playback_type` line: four fields, the
`genres:` header and one bullet per genre. -/
def mediaLinesA (depth : Nat) (f : FetchedMedia) : List String :=
  [indent depth ++ ("album_artist: \"" ++ (f.album_artist ++ "\"")),
   indent depth ++ ("album_title: \"" ++ (f.album_title ++ "\"")),
   indent depth ++ ("album_track_count: " ++ toString f.album_track_count),
   indent depth ++ ("artist: \"" ++ (f.artist ++ "\"")),
   indent depth ++ "genres:"] ++ f.genres.map (genreBullet depth)

/-- The `playback_type`, `subtitle` and `thumbnail:` lines (the first two
unquoted in this printer). -/
def mediaLinesB (depth : Nat) (f : FetchedMedia) (pt : String) : List String :=
  [indent depth ++ ("playback_type: " ++ pt),
   indent depth ++ ("subtitle: " ++ f.subtitle),
   indent depth ++ "thumbnail:"]

/-- The `content_type` sub-line, one extra literal 4-space level. -/
def contentTypeLine (depth : Nat) (ct : String) : String :=
  indent depth ++ ("    content_type: " ++ ct)

/-- The `size`, `title` and `track_number` lines. -/
def mediaLinesC (depth : Nat) (f : FetchedMedia) (sz : Nat) : List String :=
  [indent depth ++ ("    size: " ++ toString sz),
   indent depth ++ ("title: " ++ f.title),
   indent depth ++ ("track_number: " ++ toString f.track_number)]

/-- The print phase of `print_media_properties`: the `playback_type_str`
call can hit `unreachable!()` mid-print, and `thumbnail.ContentType()?` /
`thumbnail.Size()?` are read (with `?`) only when their lines print. -/
def printMediaFetched (depth : Nat) (f : FetchedMedia) :
    List String × PrintResult :=
  match playback_type_str f.playback_type with
  | none => (mediaLinesA depth f, .aborted)
  | some pt =>
    match f.thumbnail.contentType with
    | .error e => (mediaLinesA depth f ++ mediaLinesB depth f pt, .error e)
    | .ok ct =>
      match f.thumbnail.size with
      | .error e =>
        (mediaLinesA depth f ++ mediaLinesB depth f pt ++ [contentTypeLine depth ct], .error e)
      | .ok sz =>
        (mediaLinesA depth f ++ mediaLinesB depth f pt ++ [contentTypeLine depth ct]
          ++ mediaLinesC depth f sz, .ok)

/-- Model of `async fn print_media_properties(session, depth)`. -/
def print_media_properties (s : Session) (depth : Nat) :
    List String × PrintResult :=
  match s.mediaProperties with
  | .error e => ([], .error e)
  | .ok mp =>
    match fetchMedia mp with
    | .error e => ([], .error e)
    | .ok f => printMediaFetched depth f

/-- Model of `async fn main()`: the stdout lines of a run and how the
process finished.  `PrintResult.ok` is exit code 0; `PrintResult.error e`
is `main` returning `Err(e)` (non-zero exit); `PrintResult.aborted` is a
panic (non-zero exit).  The `let _ =` call sites discard the three
`Result` values of the three printers, but a panic inside one still kills the process. -/
def main_run (p : Platform) : List String × PrintResult :=
  match p.requestManager with
  | .error e => ([], .error e)
  | .ok mgr =>
  match mgr.getCurrentSession with
  | .error e => ([], .error e)
  | .ok s =>
  match s.sourceAppUserModelId with
  | .error e => ([], .error e)
  | .ok appid =>
    let head := ["app_user_model_id: \"" ++ (appid ++ "\""), "", "media_properties:"]
    let m := print_media_properties s 1
    if m.2 = PrintResult.aborted then (head ++ m.1, PrintResult.aborted) else
    let head2 := head ++ m.1 ++ ["    playback_info:"]
    let pb := print_playback_info s 2
    if pb.2 = PrintResult.aborted then (head2 ++ pb.1, PrintResult.aborted) else
    let head3 := head2 ++ pb.1 ++ ["", "    timeline_properties:"]
    let tl := print_timeline_properties s 2
    if tl.2 = PrintResult.aborted then (head3 ++ tl.1, PrintResult.aborted) else
    (head3 ++ tl.1, PrintResult.ok)

/-! ### Concrete platform fixtures -/

/-- All 15 control getters succeed with `false`. -/
def okControls : PlaybackControls :=
  ⟨.ok false, .ok false, .ok false, .ok false, .ok false, .ok false, .ok false,
   .ok false, .ok false, .ok false, .ok false, .ok false, .ok false, .ok false, .ok false⟩

/-- The spec end-to-end scenario thumbnail: `image/png`, 1024 bytes. -/
def spotifyThumb : Thumbnail := ⟨.ok "image/png", .ok 1024⟩

/-- The spec end-to-end scenario media snapshot: title "Song", artist
"Artist", empty genre list. -/
def spotifyMedia : MediaProperties :=
  { albumArtist := .ok ""
    albumTitle := .ok ""
    albumTrackCount := .ok 0
    artist := .ok "Artist"
    genres := .ok []
    playbackType := .ok 1
    subtitle := .ok ""
    thumbnail := .ok spotifyThumb
    title := .ok "Song"
    trackNumber := .ok 0 }

/-- The spec end-to-end scenario playback info: status 4 (Playing),
shuffle on, repeat 1 (Track), rate 1.0. -/
def spotifyInfo : PlaybackInfo :=
  { autoRepeatMode := .ok 1
    controls := .ok okControls
    isShuffleActive := .ok true
    playbackRate := .ok "1.00"
    playbackStatus := .ok 4
    playbackType := .ok 1 }

/-- An all-zero timeline snapshot. -/
def zeroTimeline : TimelineProperties :=
  ⟨.ok 0, .ok 0, .ok 0, .ok 0, .ok 0, .ok 0⟩

/-- The spec end-to-end scenario session ("Spotify.exe"). -/
def spotifySession : Session :=
  ⟨.ok "Spotify.exe", .ok spotifyMedia, .ok spotifyInfo, .ok zeroTimeline⟩

/-- The spec end-to-end scenario platform. -/
def spotifyPlatform : Platform := ⟨.ok ⟨.ok spotifySession⟩⟩

/-! ### String helpers for stating the claims -/

/-- Boolean test that `pat` is an initial segment of `l`. -/
def startsWithB : List Char → List Char → Bool
  | [], _ => true
  | _ :: _, [] => false
  | a :: as, b :: bs => a == b && startsWithB as bs

/-- Boolean test that `pat` occurs contiguously somewhere in `l`. -/
def occursWithin (pat : List Char) : List Char → Bool
  | [] => startsWithB pat []
  | c :: rest => startsWithB pat (c :: rest) || occursWithin pat rest

/-- Boolean test that `needle` occurs as a substring of `hay`. -/
def strContains (hay needle : String) : Bool :=
  occursWithin needle.data hay.data

/-- Boolean test that each listed line occurs (up to leading indentation)
in the given output, in the given relative order. -/
def containsLinesInOrder : List String → List String → Bool
  | [], _ => true
  | _ :: _, [] => false
  | n :: ns, l :: ls =>
    if stripIndent l = n then containsLinesInOrder ns ls
    else containsLinesInOrder (n :: ns) ls

/-! ### Leading-space arithmetic -/

theorem data_append (a b : String) : (a ++ b).data = a.data ++ b.data := by
  cases a; cases b; rfl

theorem takeWhile_spaces_replicate (n : Nat) (l : List Char) :
    ((List.replicate n ' ' ++ l).takeWhile (fun c => c == ' ')).length
      = n + (l.takeWhile (fun c => c == ' ')).length := by
  induction n with
  | zero => simp
  | succ k ih =>
    rw [List.replicate_succ, List.cons_append,
      List.takeWhile_cons_of_pos (p := fun c => c == ' ') (by decide),
      List.length_cons, ih]
    omega

theorem leadingSpaces_indent_append (d : Nat) (t : String) :
    leadingSpaces (indent d ++ t) = 4 * d + leadingSpaces t := by
  unfold leadingSpaces indent
  rw [data_append]
  show ((List.replicate (d * 4) ' ' ++ t.data).takeWhile (fun c => c == ' ')).length = _
  rw [takeWhile_spaces_replicate]
  omega

theorem takeWhile_append_stop (l₁ l₂ : List Char)
    (h : (l₁.takeWhile (fun c => c == ' ')).length < l₁.length) :
    ((l₁ ++ l₂).takeWhile (fun c => c == ' ')) = l₁.takeWhile (fun c => c == ' ') := by
  induction l₁ with
  | nil => simp at h
  | cons c cs ih =>
    by_cases hc : (c == ' ') = true
    · rw [List.takeWhile_cons_of_pos (p := fun x => x == ' ') hc] at h
      rw [List.cons_append, List.takeWhile_cons_of_pos (p := fun x => x == ' ') hc,
        List.takeWhile_cons_of_pos (p := fun x => x == ' ') hc]
      simp only [List.length_cons] at h
      rw [ih (by omega)]
    · rw [List.cons_append, List.takeWhile_cons_of_neg (p := fun x => x == ' ') (by simp_all),
        List.takeWhile_cons_of_neg (p := fun x => x == ' ') (by simp_all)]

theorem leadingSpaces_stop (a b : String) (h : leadingSpaces a < a.data.length) :
    leadingSpaces (a ++ b) = leadingSpaces a := by
  unfold leadingSpaces at h ⊢
  rw [data_append, takeWhile_append_stop a.data b.data h]

/-- Leading spaces of a printer line `indent d ++ (a ++ b)` whose label
`a` itself starts with `k` spaces followed by a non-space character. -/
theorem leadingSpaces_line (d : Nat) (a b : String) (k : Nat)
    (hstop : leadingSpaces a < a.data.length) (hk : leadingSpaces a = k) :
    leadingSpaces (indent d ++ (a ++ b)) = 4 * d + k := by
  rw [leadingSpaces_indent_append, leadingSpaces_stop a b hstop, hk]

/-- Leading spaces of a printer line `indent d ++ a` with `a` a literal. -/
theorem leadingSpaces_pure (d : Nat) (a : String) (k : Nat) (hk : leadingSpaces a = k) :
    leadingSpaces (indent d ++ a) = 4 * d + k := by
  rw [leadingSpaces_indent_append, hk]

theorem map_constant {α β : Type} (l : List α) (b : β) :
    l.map (fun _ => b) = List.replicate l.length b := by
  induction l <;> simp_all [List.replicate_succ]

/-! ### Structural lemmas about the printers -/

theorem pseq_of_ok (a b : List String × PrintResult) (h : a.2 = PrintResult.ok) :
    pseq a b = (a.1 ++ b.1, b.2) := by
  obtain ⟨out, r⟩ := a
  cases r <;> simp_all [pseq]

theorem shuffleLine_snd (d : Nat) (v : Except String Bool) :
    (shuffleLine d v).2 = PrintResult.ok := by
  cases v <;> rfl

theorem rateLine_snd (d : Nat) (v : Except String String) :
    (rateLine d v).2 = PrintResult.ok := by
  cases v <;> rfl

theorem timeline_not_aborted (s : Session) (d : Nat) :
    (print_timeline_properties s d).2 ≠ PrintResult.aborted := by
  unfold print_timeline_properties
  split
  · simp
  · split <;> simp

theorem fetchMedia_ok_fields (mp : MediaProperties) (f : FetchedMedia)
    (h : fetchMedia mp = .ok f) :
    mp.albumArtist = .ok f.album_artist ∧ mp.albumTitle = .ok f.album_title ∧
    mp.albumTrackCount = .ok f.album_track_count ∧ mp.artist = .ok f.artist ∧
    mp.genres = .ok f.genres ∧ mp.playbackType = .ok f.playback_type ∧
    mp.subtitle = .ok f.subtitle ∧ mp.thumbnail = .ok f.thumbnail ∧
    mp.title = .ok f.title ∧ mp.trackNumber = .ok f.track_number := by
  unfold fetchMedia at h
  repeat' split at h
  all_goals simp_all
  simp [← h]

theorem media_result_error_of_fail (s : Session) (d : Nat)
    (hfail : (∃ e, s.mediaProperties = Except.error e) ∨
             (∃ mp, s.mediaProperties = Except.ok mp ∧ ∃ e, mp.thumbnail = Except.error e)) :
    ∃ e, print_media_properties s d = ([], PrintResult.error e) := by
  rcases hfail with ⟨e, he⟩ | ⟨mp, hmp, e, hth⟩
  · exact ⟨e, by simp [print_media_properties, he]⟩
  · cases hfm : fetchMedia mp with
    | error e2 => exact ⟨e2, by simp [print_media_properties, hmp, hfm]⟩
    | ok f =>
      have hfield := (fetchMedia_ok_fields mp f hfm).2.2.2.2.2.2.2.1
      rw [hth] at hfield
      exact absurd hfield (by simp)

theorem print_media_success_shape (s : Session) (d : Nat) (mp : MediaProperties)
    (f : FetchedMedia) (ptName ct : String) (sz : Nat)
    (hmp : s.mediaProperties = .ok mp) (hfm : fetchMedia mp = .ok f)
    (hpt : playback_type_str f.playback_type = some ptName)
    (hct : f.thumbnail.contentType = .ok ct) (hsz : f.thumbnail.size = .ok sz) :
    print_media_properties s d =
      (mediaLinesA d f ++ mediaLinesB d f ptName ++ [contentTypeLine d ct]
        ++ mediaLinesC d f sz, PrintResult.ok) := by
  simp [print_media_properties, printMediaFetched, hmp, hfm, hpt, hct, hsz]

theorem print_playback_success_shape (s : Session) (d : Nat) (info : PlaybackInfo)
    (arm : Int) (armName : String) (ctrl : PlaybackControls) (fc : FetchedControls)
    (sh : Bool) (rate : String) (st : Int) (stName : String) (ty : Int) (tyName : String)
    (hpi : s.playbackInfo = .ok info)
    (harm : info.autoRepeatMode = .ok arm) (harmN : autoRepeatModeStr arm = some armName)
    (hctrl : info.controls = .ok ctrl) (hfc : fetchControls ctrl = .ok fc)
    (hsh : info.isShuffleActive = .ok sh) (hrate : info.playbackRate = .ok rate)
    (hst : info.playbackStatus = .ok st) (hstN : playbackStatusStr st = some stName)
    (hty : info.playbackType = .ok ty) (htyN : playback_type_str ty = some tyName) :
    print_playback_info s d =
      ((indent d ++ ("auto_repeat_mode: \"" ++ (armName ++ "\"")))
        :: (indent d ++ "controls:") :: printControlsFetched (d + 1) fc
        ++ [indent d ++ ("is_shuffle_active: " ++ toString sh),
            indent d ++ ("playback_rate: " ++ rate),
            indent d ++ ("playback_status: \"" ++ (stName ++ "\"")),
            indent d ++ ("playback_type: \"" ++ (tyName ++ "\""))], PrintResult.ok) := by
  simp [print_playback_info, hpi, autoRepeatLine, harm, harmN, controlsSection, hctrl,
    print_playback_controls, hfc, shuffleLine, hsh, rateLine, hrate, statusLine, hst, hstN,
    typeLine, hty, htyN, pseq]

/-! ### Claim C1 -/

/-- C1: if the session manager was obtained but reports no current session
(the get-current-session call fails), the run produces no output line at
all — in particular none of the three printers is attempted — and the
process finishes with the error, i.e. a non-zero exit status. -/
theorem no_session_fatal_exit (p : Platform) (mgr : SessionManager) (e : String)
    (hm : p.requestManager = .ok mgr)
    (hs : mgr.getCurrentSession = .error e) :
    main_run p = ([], PrintResult.error e) := by
  simp [main_run, hm, hs]

/-- A platform whose manager reports no current session. -/
def noSessionPlatform : Platform := ⟨.ok ⟨.error "no current session"⟩⟩

/-- Witness for C1 at a concrete platform. -/
theorem no_session_fatal_exit_witness :
    noSessionPlatform.requestManager = .ok ⟨.error "no current session"⟩ ∧
    (SessionManager.mk (.error "no current session")).getCurrentSession
      = .error "no current session" ∧
    main_run noSessionPlatform = ([], PrintResult.error "no current session") :=
  ⟨rfl, rfl, no_session_fatal_exit noSessionPlatform ⟨.error "no current session"⟩
    "no current session" rfl rfl⟩

/-! ### Claim C2 -/

/-- C2: each enum rendering is a pure total function on its known input
domain — 0..5 for playback status, 0..2 for auto-repeat mode, 0..3 for
playback type, with exactly the listed names — and every integer outside
the respective domain is rejected: the table yields `none`, and in the
printer that `none` aborts the process (`PrintResult.aborted`) instead of
emitting a fallback line. -/
theorem enum_tables_total_and_rejecting :
    (playbackStatusStr 0 = some "Closed" ∧ playbackStatusStr 1 = some "Opened" ∧
     playbackStatusStr 2 = some "Changing" ∧ playbackStatusStr 3 = some "Stopped" ∧
     playbackStatusStr 4 = some "Playing" ∧ playbackStatusStr 5 = some "Paused") ∧
    (autoRepeatModeStr 0 = some "None" ∧ autoRepeatModeStr 1 = some "Track" ∧
     autoRepeatModeStr 2 = some "List") ∧
    (playback_type_str 0 = some "Unknown" ∧ playback_type_str 1 = some "Music" ∧
     playback_type_str 2 = some "Video" ∧ playback_type_str 3 = some "Image") ∧
    (∀ t : Int, t < 0 ∨ 5 < t → playbackStatusStr t = none) ∧
    (∀ t : Int, t < 0 ∨ 2 < t → autoRepeatModeStr t = none) ∧
    (∀ t : Int, t < 0 ∨ 3 < t → playback_type_str t = none) ∧
    (∀ (d : Nat) (t : Int), playbackStatusStr t = none →
      statusLine d (Except.ok t) = ([], PrintResult.aborted)) ∧
    (∀ (d : Nat) (t : Int), autoRepeatModeStr t = none →
      autoRepeatLine d (Except.ok t) = ([], PrintResult.aborted)) ∧
    (∀ (d : Nat) (t : Int), playback_type_str t = none →
      typeLine d (Except.ok t) = ([], PrintResult.aborted)) := by
  refine ⟨⟨rfl, rfl, rfl, rfl, rfl, rfl⟩, ⟨rfl, rfl, rfl⟩, ⟨rfl, rfl, rfl, rfl⟩,
    ?_, ?_, ?_, ?_, ?_, ?_⟩
  · intro t h; unfold playbackStatusStr; split_ifs <;> first | omega | rfl
  · intro t h; unfold autoRepeatModeStr; split_ifs <;> first | omega | rfl
  · intro t h; unfold playback_type_str; split_ifs <;> first | omega | rfl
  · intro d t h; simp [statusLine, h]
  · intro d t h; simp [autoRepeatLine, h]
  · intro d t h; simp [typeLine, h]

/-- Witness for C2 at concrete out-of-range inputs. -/
theorem enum_tables_total_and_rejecting_witness :
    playbackStatusStr 6 = none ∧ autoRepeatModeStr 3 = none ∧
    playback_type_str 4 = none ∧ playbackStatusStr (-1) = none ∧
    statusLine 2 (Except.ok 6) = ([], PrintResult.aborted) :=
  ⟨enum_tables_total_and_rejecting.2.2.2.1 6 (Or.inr (by norm_num)),
   enum_tables_total_and_rejecting.2.2.2.2.1 3 (Or.inr (by norm_num)),
   enum_tables_total_and_rejecting.2.2.2.2.2.1 4 (Or.inr (by norm_num)),
   enum_tables_total_and_rejecting.2.2.2.1 (-1) (Or.inl (by norm_num)),
   enum_tables_total_and_rejecting.2.2.2.2.2.2.1 2 6
     (enum_tables_total_and_rejecting.2.2.2.1 6 (Or.inr (by norm_num)))⟩

/-! ### Claim C5 -/

/-- The six lines the spec end-to-end scenario claims, in the relative
order the spec claims them. -/
def claimedScenarioLines : List String :=
  ["app_user_model_id: \"Spotify.exe\"", "playback_status: \"Playing\"",
   "is_shuffle_active: true", "title: \"Song\"", "content_type: image/png",
   "size: 1024"]

/-- The six lines as the program actually prints them, in the relative
order the program actually emits: the media-properties section (with the
thumbnail `content_type`/`size` sub-fields and then the unquoted `title`)
comes before the playback-info section, and `is_shuffle_active` precedes
`playback_status`. -/
def actualScenarioLines : List String :=
  ["app_user_model_id: \"Spotify.exe\"", "content_type: image/png",
   "size: 1024", "title: Song", "is_shuffle_active: true",
   "playback_status: \"Playing\""]

/-- C5 counterexample: on the scenario platform the claimed six lines do
NOT occur in the claimed relative order (the `playback_status` line is
printed after the thumbnail and title lines, and the `title` line is
printed without quotes). -/
theorem scenario_lines_cex :
    containsLinesInOrder claimedScenarioLines (main_run spotifyPlatform).1 = false := by
  decide

/-- C5 amended: the scenario output contains the six lines in the order
the program emits them — `app_user_model_id`, then the thumbnail
`content_type` and `size`, then the unquoted `title`, then
`is_shuffle_active`, then `playback_status`. -/
theorem scenario_lines_actual_order :
    containsLinesInOrder actualScenarioLines (main_run spotifyPlatform).1 = true := by
  decide

/-! ### Claim C3 -/

/-- C3: if session acquisition (and the source-app-id read) succeeded but
the media-properties fetch, or the thumbnail-stream open inside the
media-properties printer, fails, then the playback-info printer and the
timeline-properties printer still execute and run to completion: the run
emits their full outputs after the media section and finishes with exit
code 0.  (The playback-info printer is assumed not to hit an out-of-range
enum, which would kill the process by itself.) -/
theorem media_failure_soft_isolation (p : Platform) (mgr : SessionManager)
    (s : Session) (appid : String)
    (hm : p.requestManager = .ok mgr) (hs : mgr.getCurrentSession = .ok s)
    (ha : s.sourceAppUserModelId = .ok appid)
    (hfail : (∃ e, s.mediaProperties = Except.error e) ∨
             (∃ mp, s.mediaProperties = Except.ok mp ∧ ∃ e, mp.thumbnail = Except.error e))
    (hpb : (print_playback_info s 2).2 ≠ PrintResult.aborted) :
    main_run p =
      (["app_user_model_id: \"" ++ (appid ++ "\""), "", "media_properties:"]
        ++ (print_media_properties s 1).1 ++ ["    playback_info:"]
        ++ (print_playback_info s 2).1 ++ ["", "    timeline_properties:"]
        ++ (print_timeline_properties s 2).1, PrintResult.ok) := by
  obtain ⟨e, hme⟩ := media_result_error_of_fail s 1 hfail
  simp [main_run, hm, hs, ha, hme, hpb, timeline_not_aborted]

/-- A media snapshot whose thumbnail stream cannot be opened. -/
def thumbFailMedia : MediaProperties :=
  { spotifyMedia with thumbnail := .error "thumbnail gone" }

/-- A session whose only failure is the thumbnail-stream open. -/
def thumbFailSession : Session :=
  ⟨.ok "App.exe", .ok thumbFailMedia, .ok spotifyInfo, .ok zeroTimeline⟩

/-- The platform around `thumbFailSession`. -/
def thumbFailPlatform : Platform := ⟨.ok ⟨.ok thumbFailSession⟩⟩

/-- Witness for C3 at a concrete platform whose thumbnail open fails. -/
theorem media_failure_soft_isolation_witness :
    ((∃ e, thumbFailSession.mediaProperties = Except.error e) ∨
     (∃ mp, thumbFailSession.mediaProperties = Except.ok mp ∧
        ∃ e, mp.thumbnail = Except.error e)) ∧
    (print_playback_info thumbFailSession 2).2 ≠ PrintResult.aborted ∧
    main_run thumbFailPlatform =
      (["app_user_model_id: \"" ++ ("App.exe" ++ "\""), "", "media_properties:"]
        ++ (print_media_properties thumbFailSession 1).1 ++ ["    playback_info:"]
        ++ (print_playback_info thumbFailSession 2).1 ++ ["", "    timeline_properties:"]
        ++ (print_timeline_properties thumbFailSession 2).1, PrintResult.ok) :=
  ⟨Or.inr ⟨thumbFailMedia, rfl, "thumbnail gone", rfl⟩, by decide,
   media_failure_soft_isolation thumbFailPlatform ⟨.ok thumbFailSession⟩
     thumbFailSession "App.exe" rfl rfl rfl
     (Or.inr ⟨thumbFailMedia, rfl, "thumbnail gone", rfl⟩) (by decide)⟩

/-! ### Claim C6 -/

/-- A session whose source-app-id read fails while everything else works. -/
def appidFailSession : Session :=
  ⟨.error "id unavailable", .ok spotifyMedia, .ok spotifyInfo, .ok zeroTimeline⟩

/-- The platform around `appidFailSession`. -/
def appidFailPlatform : Platform := ⟨.ok ⟨.ok appidFailSession⟩⟩

/-- C6 counterexample: session acquisition succeeds (the manager and the
current session are both obtained), yet the run exits non-zero, because
the source-app-id read — listed by the claim as a mere field-dump
sub-step — is propagated with `?` and aborts `main`. -/
theorem appid_failure_nonzero_exit_cex :
    appidFailPlatform.requestManager = Except.ok ⟨Except.ok appidFailSession⟩ ∧
    (SessionManager.mk (Except.ok appidFailSession)).getCurrentSession
      = Except.ok appidFailSession ∧
    main_run appidFailPlatform = ([], PrintResult.error "id unavailable") ∧
    (main_run appidFailPlatform).2 ≠ PrintResult.ok := by
  refine ⟨rfl, rfl, by decide, by decide⟩

/-- C6 amended: for every run in which session acquisition AND the
source-app-id read succeed, and no printer hits an out-of-range enum
(which would panic), the process exits with code 0 regardless of whether
the media-properties, playback-info, or timeline-properties printers
failed. -/
theorem exit_zero_when_header_succeeds (p : Platform) (mgr : SessionManager)
    (s : Session) (appid : String)
    (hm : p.requestManager = .ok mgr) (hs : mgr.getCurrentSession = .ok s)
    (ha : s.sourceAppUserModelId = .ok appid)
    (hmedia : (print_media_properties s 1).2 ≠ PrintResult.aborted)
    (hpb : (print_playback_info s 2).2 ≠ PrintResult.aborted) :
    (main_run p).2 = PrintResult.ok := by
  simp [main_run, hm, hs, ha, hmedia, hpb, timeline_not_aborted]

/-- A session in which all three printer fetches fail. -/
def allPrintersFailSession : Session :=
  ⟨.ok "App.exe", .error "media gone", .error "playback gone", .error "timeline gone"⟩

/-- The platform around `allPrintersFailSession`. -/
def allPrintersFailPlatform : Platform := ⟨.ok ⟨.ok allPrintersFailSession⟩⟩

/-- Witness for amended C6: every printer fails, exit code is still 0. -/
theorem exit_zero_when_header_succeeds_witness :
    (print_media_properties allPrintersFailSession 1).2 ≠ PrintResult.aborted ∧
    (print_playback_info allPrintersFailSession 2).2 ≠ PrintResult.aborted ∧
    (main_run allPrintersFailPlatform).2 = PrintResult.ok :=
  ⟨by decide, by decide,
   exit_zero_when_header_succeeds allPrintersFailPlatform ⟨.ok allPrintersFailSession⟩
     allPrintersFailSession "App.exe" rfl rfl rfl (by decide) (by decide)⟩

/-! ### Claim C7 -/

/-- A session whose media-properties fetch fails with a distinctive error
text, everything else succeeding. -/
def mediaFailSession : Session :=
  ⟨.ok "App.exe", .error "media metadata gone", .ok spotifyInfo, .ok zeroTimeline⟩

/-- The platform around `mediaFailSession`. -/
def mediaFailPlatform : Platform := ⟨.ok ⟨.ok mediaFailSession⟩⟩

/-- A thumbnail stream that opens but whose content-type read fails. -/
def ctFailThumb : Thumbnail := ⟨.error "content type gone", .ok 1024⟩

/-- Media snapshot whose only failure is the mid-print content-type read. -/
def ctFailMedia : MediaProperties := { spotifyMedia with thumbnail := .ok ctFailThumb }

/-- The session around `ctFailMedia`. -/
def ctFailSession : Session :=
  ⟨.ok "App.exe", .ok ctFailMedia, .ok spotifyInfo, .ok zeroTimeline⟩

/-- The platform around `ctFailSession`. -/
def ctFailPlatform : Platform := ⟨.ok ⟨.ok ctFailSession⟩⟩

/-- C7 counterexample, at two failure sites of the media printer.  The
metadata-snapshot fetch fails with error text "media metadata gone": the
failure is caught at the call site (the run continues and exits 0) but
the error text appears in NO output line.  Likewise the mid-print
content-type read fails with error text "content type gone": the lines
already printed stay in the output (the media section is non-empty), the
run continues and exits 0, and again the error text appears in NO output
line — nothing is logged to the output stream in either case. -/
theorem media_error_not_logged_cex :
    mediaFailSession.mediaProperties = Except.error "media metadata gone" ∧
    (main_run mediaFailPlatform).2 = PrintResult.ok ∧
    ((main_run mediaFailPlatform).1.all
      fun l => !(strContains l "media metadata gone")) = true ∧
    (print_media_properties ctFailSession 1).2 = PrintResult.error "content type gone" ∧
    (print_media_properties ctFailSession 1).1 ≠ [] ∧
    (main_run ctFailPlatform).2 = PrintResult.ok ∧
    ((main_run ctFailPlatform).1.all
      fun l => !(strContains l "content type gone")) = true := by
  refine ⟨rfl, by decide, by decide, by decide, by decide, by decide, by decide⟩

/-- C7 amended: ANY failure inside the media-properties printer — the
metadata-snapshot fetch, any of the ten pre-print field fetches
(including the thumbnail-stream open), or the mid-print content-type and
size reads — is caught at the call site: the run still executes the
remaining two printers in full and exits 0.  But the error is discarded
rather than logged: the whole output is exactly the header lines plus
the three printers own lines (for a mid-print failure, the media lines
already printed before the failing read), and `main` appends no line for
the error value `e`. -/
theorem media_error_caught_but_discarded (p : Platform) (mgr : SessionManager)
    (s : Session) (appid e : String)
    (hm : p.requestManager = .ok mgr) (hs : mgr.getCurrentSession = .ok s)
    (ha : s.sourceAppUserModelId = .ok appid)
    (hmedia : (print_media_properties s 1).2 = PrintResult.error e)
    (hpb : (print_playback_info s 2).2 ≠ PrintResult.aborted) :
    main_run p =
      (["app_user_model_id: \"" ++ (appid ++ "\""), "", "media_properties:"]
        ++ (print_media_properties s 1).1 ++ ["    playback_info:"]
        ++ (print_playback_info s 2).1 ++ ["", "    timeline_properties:"]
        ++ (print_timeline_properties s 2).1, PrintResult.ok) := by
  simp [main_run, hm, hs, ha, hmedia, hpb, timeline_not_aborted]

/-- Witness for amended C7 at a concrete platform whose media printer
fails mid-print, on the content-type read. -/
theorem media_error_caught_but_discarded_witness :
    (print_media_properties ctFailSession 1).2 = PrintResult.error "content type gone" ∧
    (print_playback_info ctFailSession 2).2 ≠ PrintResult.aborted ∧
    main_run ctFailPlatform =
      (["app_user_model_id: \"" ++ ("App.exe" ++ "\""), "", "media_properties:"]
        ++ (print_media_properties ctFailSession 1).1 ++ ["    playback_info:"]
        ++ (print_playback_info ctFailSession 2).1 ++ ["", "    timeline_properties:"]
        ++ (print_timeline_properties ctFailSession 2).1, PrintResult.ok) :=
  ⟨by decide, by decide,
   media_error_caught_but_discarded ctFailPlatform ⟨.ok ctFailSession⟩
     ctFailSession "App.exe" "content type gone" rfl rfl rfl (by decide) (by decide)⟩

/-! ### Claim C4 -/

/-- Controls whose first flag getter fails, the rest succeeding. -/
def badFlagControls : PlaybackControls :=
  { okControls with isChannelDownEnabled := .error "flag unavailable" }

/-- Playback info with shuffle/rate/status/type all present but one
control flag failing. -/
def badFlagInfo : PlaybackInfo :=
  { spotifyInfo with controls := .ok badFlagControls }

/-- The session around `badFlagInfo`. -/
def badFlagSession : Session :=
  ⟨.ok "App.exe", .ok spotifyMedia, .ok badFlagInfo, .ok zeroTimeline⟩

/-- C4 counterexample: the shuffle flag (`Ok true`) and the playback
status (`Ok 4`) are both present, yet a failure while reading one of the
15 control flags makes `print_playback_info` return early after the
`controls:` header — the `is_shuffle_active`, `playback_rate`,
`playback_status` and `playback_type` lines are all suppressed. -/
theorem control_flag_failure_suppresses_cex :
    badFlagInfo.isShuffleActive = Except.ok true ∧
    badFlagInfo.playbackStatus = Except.ok 4 ∧
    print_playback_info badFlagSession 2 =
      (["        auto_repeat_mode: \"Track\"", "        controls:"],
       PrintResult.error "flag unavailable") ∧
    ¬ ("is_shuffle_active: true" ∈ (print_playback_info badFlagSession 2).1.map stripIndent) ∧
    ¬ ("playback_status: \"Playing\"" ∈ (print_playback_info badFlagSession 2).1.map stripIndent) := by
  refine ⟨rfl, rfl, by decide, by decide, by decide⟩

/-- C4 amended: each optional field of the playback-info printer
(auto-repeat mode, controls, shuffle flag, playback rate, playback
status, playback type) is read independently and contributes only its own
output segment — a failure or absence of the field itself skips only that
segment — PROVIDED the controls section finishes cleanly (its getter
fails, or every one of its 15 flags reads successfully); a failure while
reading one of the 15 individual control flags instead aborts the
remainder of the printer (see the counterexample). -/
theorem playback_fields_isolated (s : Session) (d : Nat) (info : PlaybackInfo)
    (hs : s.playbackInfo = .ok info)
    (h1 : (autoRepeatLine d info.autoRepeatMode).2 = PrintResult.ok)
    (h2 : (controlsSection d info.controls).2 = PrintResult.ok)
    (h3 : (statusLine d info.playbackStatus).2 = PrintResult.ok)
    (h4 : (typeLine d info.playbackType).2 = PrintResult.ok) :
    print_playback_info s d =
      ((autoRepeatLine d info.autoRepeatMode).1 ++ (controlsSection d info.controls).1
        ++ (shuffleLine d info.isShuffleActive).1 ++ (rateLine d info.playbackRate).1
        ++ (statusLine d info.playbackStatus).1 ++ (typeLine d info.playbackType).1,
       PrintResult.ok) := by
  unfold print_playback_info
  rw [hs]
  dsimp only
  rw [pseq_of_ok (statusLine d info.playbackStatus) _ h3]
  rw [pseq_of_ok (rateLine d info.playbackRate) _ (rateLine_snd d _)]
  rw [pseq_of_ok (shuffleLine d info.isShuffleActive) _ (shuffleLine_snd d _)]
  rw [pseq_of_ok (controlsSection d info.controls) _ h2]
  rw [pseq_of_ok (autoRepeatLine d info.autoRepeatMode) _ h1]
  rw [h4]
  simp [List.append_assoc]

/-- Playback info identical to the scenario one except that the platform
does not expose the playback rate. -/
def rateMissingInfo : PlaybackInfo :=
  { spotifyInfo with playbackRate := .error "rate unsupported" }

/-- The session around `rateMissingInfo`. -/
def rateMissingSession : Session :=
  ⟨.ok "App.exe", .ok spotifyMedia, .ok rateMissingInfo, .ok zeroTimeline⟩

/-- Witness for amended C4: the missing playback rate skips only its own
line; auto-repeat, controls, shuffle, status and type all still print. -/
theorem playback_fields_isolated_witness :
    (autoRepeatLine 2 rateMissingInfo.autoRepeatMode).2 = PrintResult.ok ∧
    (controlsSection 2 rateMissingInfo.controls).2 = PrintResult.ok ∧
    (statusLine 2 rateMissingInfo.playbackStatus).2 = PrintResult.ok ∧
    (typeLine 2 rateMissingInfo.playbackType).2 = PrintResult.ok ∧
    (rateLine 2 rateMissingInfo.playbackRate).1 = [] ∧
    print_playback_info rateMissingSession 2 =
      ((autoRepeatLine 2 rateMissingInfo.autoRepeatMode).1
        ++ (controlsSection 2 rateMissingInfo.controls).1
        ++ (shuffleLine 2 rateMissingInfo.isShuffleActive).1
        ++ (rateLine 2 rateMissingInfo.playbackRate).1
        ++ (statusLine 2 rateMissingInfo.playbackStatus).1
        ++ (typeLine 2 rateMissingInfo.playbackType).1, PrintResult.ok) :=
  ⟨by decide, by decide, by decide, by decide, by decide,
   playback_fields_isolated rateMissingSession 2 rateMissingInfo rfl
     (by decide) (by decide) (by decide) (by decide)⟩

/-! ### Claim C9 -/

/-- C9: in a successful media-properties dump the `genres:` header line is
followed by exactly one bullet line per genre — zero bullets for an empty
genre sequence — and the i-th bullet is the bullet rendering of the
literal i-th genre string (`genreBullet d g` textually contains `g`). -/
theorem genre_list_rendering (s : Session) (d : Nat) (mp : MediaProperties)
    (f : FetchedMedia) (ptName ct : String) (sz : Nat)
    (hmp : s.mediaProperties = .ok mp) (hfm : fetchMedia mp = .ok f)
    (hpt : playback_type_str f.playback_type = some ptName)
    (hct : f.thumbnail.contentType = .ok ct) (hsz : f.thumbnail.size = .ok sz) :
    (print_media_properties s d).1 =
      [indent d ++ ("album_artist: \"" ++ (f.album_artist ++ "\"")),
       indent d ++ ("album_title: \"" ++ (f.album_title ++ "\"")),
       indent d ++ ("album_track_count: " ++ toString f.album_track_count),
       indent d ++ ("artist: \"" ++ (f.artist ++ "\""))]
      ++ (indent d ++ "genres:") :: f.genres.map (genreBullet d)
      ++ (mediaLinesB d f ptName ++ [contentTypeLine d ct] ++ mediaLinesC d f sz) ∧
    (f.genres.map (genreBullet d)).length = f.genres.length ∧
    (∀ i (h : i < f.genres.length),
      (f.genres.map (genreBullet d)).get ⟨i, by simpa using h⟩
        = indent d ++ ("     - \"" ++ (f.genres.get ⟨i, h⟩ ++ "\""))) := by
  refine ⟨?_, by simp, ?_⟩
  · rw [print_media_success_shape s d mp f ptName ct sz hmp hfm hpt hct hsz]
    simp [mediaLinesA]
  · intro i h
    simp [genreBullet]

/-- Media snapshot of the scenario with two genres. -/
def twoGenreMedia : MediaProperties :=
  { spotifyMedia with genres := .ok ["Pop", "Rock"] }

/-- The session around `twoGenreMedia`. -/
def twoGenreSession : Session :=
  ⟨.ok "App.exe", .ok twoGenreMedia, .ok spotifyInfo, .ok zeroTimeline⟩

/-- The fetched form of `twoGenreMedia`. -/
def twoGenreFetched : FetchedMedia :=
  ⟨"", "", 0, "Artist", ["Pop", "Rock"], 1, "", spotifyThumb, "Song", 0⟩

/-- Witness for C9 at a concrete two-genre session. -/
theorem genre_list_rendering_witness :
    fetchMedia twoGenreMedia = .ok twoGenreFetched ∧
    (print_media_properties twoGenreSession 1).1 =
      [indent 1 ++ ("album_artist: \"" ++ ("" ++ "\"")),
       indent 1 ++ ("album_title: \"" ++ ("" ++ "\"")),
       indent 1 ++ ("album_track_count: " ++ toString (0 : Int)),
       indent 1 ++ ("artist: \"" ++ ("Artist" ++ "\""))]
      ++ (indent 1 ++ "genres:") :: [genreBullet 1 "Pop", genreBullet 1 "Rock"]
      ++ (mediaLinesB 1 twoGenreFetched "Music" ++ [contentTypeLine 1 "image/png"]
          ++ mediaLinesC 1 twoGenreFetched 1024) :=
  ⟨rfl, ((genre_list_rendering twoGenreSession 1 twoGenreMedia twoGenreFetched
      "Music" "image/png" 1024 rfl rfl rfl rfl rfl).1)⟩

/-! ### Claim C10 -/

/-- C10: the media-properties printer is all-or-nothing with respect to
its pre-print fetches: if any one of the ten fields fetched before the
first line (album artist, album title, track count, artist, genres,
playback-type value, subtitle, thumbnail stream, title, track number)
fails, the printer emits no output line at all and returns the error. -/
theorem media_all_or_nothing (s : Session) (d : Nat) (mp : MediaProperties)
    (hmp : s.mediaProperties = .ok mp)
    (hfail : (∃ e, mp.albumArtist = Except.error e) ∨
             (∃ e, mp.albumTitle = Except.error e) ∨
             (∃ e, mp.albumTrackCount = Except.error e) ∨
             (∃ e, mp.artist = Except.error e) ∨
             (∃ e, mp.genres = Except.error e) ∨
             (∃ e, mp.playbackType = Except.error e) ∨
             (∃ e, mp.subtitle = Except.error e) ∨
             (∃ e, mp.thumbnail = Except.error e) ∨
             (∃ e, mp.title = Except.error e) ∨
             (∃ e, mp.trackNumber = Except.error e)) :
    (print_media_properties s d).1 = [] ∧
    ∃ e, (print_media_properties s d).2 = PrintResult.error e := by
  cases hfm : fetchMedia mp with
  | error e =>
    refine ⟨by simp [print_media_properties, hmp, hfm], e,
      by simp [print_media_properties, hmp, hfm]⟩
  | ok f =>
    exfalso
    obtain ⟨h1, h2, h3, h4, h5, h6, h7, h8, h9, h10⟩ := fetchMedia_ok_fields mp f hfm
    rcases hfail with ⟨e, h⟩ | ⟨e, h⟩ | ⟨e, h⟩ | ⟨e, h⟩ | ⟨e, h⟩ | ⟨e, h⟩ | ⟨e, h⟩
      | ⟨e, h⟩ | ⟨e, h⟩ | ⟨e, h⟩ <;> simp_all

/-- Media snapshot lacking only the optional playback type. -/
def noPtMedia : MediaProperties :=
  { spotifyMedia with playbackType := .error "no playback type" }

/-- The session around `noPtMedia`. -/
def noPtSession : Session :=
  ⟨.ok "App.exe", .ok noPtMedia, .ok spotifyInfo, .ok zeroTimeline⟩

/-- Witness for C10: the absence of the single optional playback-type
field suppresses the whole media section. -/
theorem media_all_or_nothing_witness :
    (∃ e, noPtMedia.playbackType = Except.error e) ∧
    (print_media_properties noPtSession 1).1 = [] ∧
    (∃ e, (print_media_properties noPtSession 1).2 = PrintResult.error e) :=
  ⟨⟨"no playback type", rfl⟩,
   (media_all_or_nothing noPtSession 1 noPtMedia rfl
     (Or.inr (Or.inr (Or.inr (Or.inr (Or.inr (Or.inl ⟨"no playback type", rfl⟩))))))).1,
   (media_all_or_nothing noPtSession 1 noPtMedia rfl
     (Or.inr (Or.inr (Or.inr (Or.inr (Or.inr (Or.inl ⟨"no playback type", rfl⟩))))))).2⟩

/-! ### Claim C8 -/

/-- Leading spaces of a line whose label starts with a non-space char. -/
theorem leadingSpaces_field_line (d : Nat) (a b : String) (c : Char) (cs : List Char)
    (ha : a.data = c :: cs) (hc : (c == ' ') = false) :
    leadingSpaces (indent d ++ (a ++ b)) = 4 * d := by
  rw [leadingSpaces_indent_append]
  unfold leadingSpaces
  rw [data_append, ha, List.cons_append,
    List.takeWhile_cons_of_neg (p := fun x => x == ' ') (by simp_all)]
  simp

/-- Leading spaces of a genre bullet: the prefix plus the five literal
spaces before the bullet marker. -/
theorem leadingSpaces_genreBullet (d : Nat) (g : String) :
    leadingSpaces (genreBullet d g) = 4 * d + 5 := by
  unfold genreBullet
  exact leadingSpaces_line d "     - \"" (g ++ "\"") 5 (by decide) rfl

/-- Media snapshot of the scenario with a single genre. -/
def popMedia : MediaProperties := { spotifyMedia with genres := .ok ["Pop"] }

/-- The session around `popMedia`. -/
def popSession : Session :=
  ⟨.ok "App.exe", .ok popMedia, .ok spotifyInfo, .ok zeroTimeline⟩

/-- C8 counterexample: at depth 1 the genre bullet line — emitted one
level below the media-properties fields, so the claim requires
4 × (1 + 1) = 8 leading spaces — actually carries 9 leading spaces (the
prefix plus five literal spaces before the bullet marker). -/
theorem genre_bullet_indent_cex :
    (print_media_properties popSession 1).1[5]? = some (genreBullet 1 "Pop") ∧
    leadingSpaces (genreBullet 1 "Pop") = 9 ∧
    4 * (1 + 1) ≠ 9 := by
  refine ⟨by decide, by decide, by decide⟩

/-- C8 amended: on a fully successful dump at depth `d`, every line of the
timeline printer carries exactly 4×d leading spaces; the playback-info
printer emits its own fields at 4×d and the 15 control lines one level
below at 4×(d+1); the media-properties printer emits its fields at 4×d
and the two thumbnail sub-fields at 4×(d+1) — but each genre bullet line
carries 4×d+5 leading spaces (the bullet marker sits five literal spaces
past the prefix), not the 4×(d+1) = 4×d+4 of a nesting level. -/
theorem indentation_discipline (s : Session) (d : Nat)
    (tp : TimelineProperties) (ft : FetchedTimeline)
    (info : PlaybackInfo) (arm : Int) (armName : String)
    (ctrl : PlaybackControls) (fc : FetchedControls)
    (sh : Bool) (rate : String) (st : Int) (stName : String) (ty : Int) (tyName : String)
    (mp : MediaProperties) (fm : FetchedMedia) (ptName ct : String) (sz : Nat)
    (htl : s.timelineProperties = .ok tp) (hft : fetchTimeline tp = .ok ft)
    (hpi : s.playbackInfo = .ok info)
    (harm : info.autoRepeatMode = .ok arm) (harmN : autoRepeatModeStr arm = some armName)
    (hctrl : info.controls = .ok ctrl) (hfc : fetchControls ctrl = .ok fc)
    (hsh : info.isShuffleActive = .ok sh) (hrate : info.playbackRate = .ok rate)
    (hst : info.playbackStatus = .ok st) (hstN : playbackStatusStr st = some stName)
    (hty : info.playbackType = .ok ty) (htyN : playback_type_str ty = some tyName)
    (hmp : s.mediaProperties = .ok mp) (hfm : fetchMedia mp = .ok fm)
    (hptN : playback_type_str fm.playback_type = some ptName)
    (hct : fm.thumbnail.contentType = .ok ct) (hsz : fm.thumbnail.size = .ok sz) :
    (print_timeline_properties s d).1.map leadingSpaces =
      [4 * d, 4 * d, 4 * d, 4 * d, 4 * d, 4 * d] ∧
    (print_playback_info s d).1.map leadingSpaces =
      [4 * d, 4 * d] ++
      [4 * (d + 1), 4 * (d + 1), 4 * (d + 1), 4 * (d + 1), 4 * (d + 1),
       4 * (d + 1), 4 * (d + 1), 4 * (d + 1), 4 * (d + 1), 4 * (d + 1),
       4 * (d + 1), 4 * (d + 1), 4 * (d + 1), 4 * (d + 1), 4 * (d + 1)] ++
      [4 * d, 4 * d, 4 * d, 4 * d] ∧
    (print_media_properties s d).1.map leadingSpaces =
      [4 * d, 4 * d, 4 * d, 4 * d, 4 * d]
        ++ List.replicate fm.genres.length (4 * d + 5)
        ++ [4 * d, 4 * d, 4 * d, 4 * (d + 1), 4 * (d + 1), 4 * d, 4 * d] := by
  refine ⟨?_, ?_, ?_⟩
  · have h1 : print_timeline_properties s d = (printTimelineFetched d ft, PrintResult.ok) := by
      simp [print_timeline_properties, htl, hft]
    rw [h1]
    simp only [printTimelineFetched, List.map_cons, List.map_nil]
    rw [leadingSpaces_field_line d "start_time: " (toString ft.start_time) 's' _ rfl (by decide),
      leadingSpaces_field_line d "end_time: " (toString ft.end_time) 'e' _ rfl (by decide),
      leadingSpaces_field_line d "max_seek_time: " (toString ft.max_seek_time) 'm' _ rfl (by decide),
      leadingSpaces_field_line d "min_seek_time: " (toString ft.min_seek_time) 'm' _ rfl (by decide),
      leadingSpaces_field_line d "position: " (toString ft.position) 'p' _ rfl (by decide),
      leadingSpaces_field_line d "last_updated_time: " (toString ft.last_updated_time) 'l' _ rfl (by decide)]
  · rw [print_playback_success_shape s d info arm armName ctrl fc sh rate st stName ty tyName
      hpi harm harmN hctrl hfc hsh hrate hst hstN hty htyN]
    simp only [printControlsFetched, List.map_cons, List.map_append, List.map_nil]
    rw [leadingSpaces_field_line d "auto_repeat_mode: \"" (armName ++ "\"") 'a' _ rfl (by decide),
      leadingSpaces_pure d "controls:" 0 rfl,
      leadingSpaces_field_line (d + 1) "is_channel_down_enabled: " (toString fc.is_channel_down_enabled) 'i' _ rfl (by decide),
      leadingSpaces_field_line (d + 1) "is_channel_up_enabled: " (toString fc.is_channel_up_enabled) 'i' _ rfl (by decide),
      leadingSpaces_field_line (d + 1) "is_fast_forward_enabled: " (toString fc.is_fast_forward_enabled) 'i' _ rfl (by decide),
      leadingSpaces_field_line (d + 1) "is_next_enabled: " (toString fc.is_next_enabled) 'i' _ rfl (by decide),
      leadingSpaces_field_line (d + 1) "is_pause_enabled: " (toString fc.is_pause_enabled) 'i' _ rfl (by decide),
      leadingSpaces_field_line (d + 1) "is_playback_position_enabled: " (toString fc.is_playback_position_enabled) 'i' _ rfl (by decide),
      leadingSpaces_field_line (d + 1) "is_playback_rate_enabled: " (toString fc.is_playback_rate_enabled) 'i' _ rfl (by decide),
      leadingSpaces_field_line (d + 1) "is_play_enabled: " (toString fc.is_play_enabled) 'i' _ rfl (by decide),
      leadingSpaces_field_line (d + 1) "is_play_pause_toggle_enabled: " (toString fc.is_play_pause_toggle_enabled) 'i' _ rfl (by decide),
      leadingSpaces_field_line (d + 1) "is_previous_enabled: " (toString fc.is_previous_enabled) 'i' _ rfl (by decide),
      leadingSpaces_field_line (d + 1) "is_record_enabled: " (toString fc.is_record_enabled) 'i' _ rfl (by decide),
      leadingSpaces_field_line (d + 1) "is_repeat_enabled: " (toString fc.is_repeat_enabled) 'i' _ rfl (by decide),
      leadingSpaces_field_line (d + 1) "is_rewind_enabled: " (toString fc.is_rewind_enabled) 'i' _ rfl (by decide),
      leadingSpaces_field_line (d + 1) "is_shuffle_enabled: " (toString fc.is_shuffle_enabled) 'i' _ rfl (by decide),
      leadingSpaces_field_line (d + 1) "is_stop_enabled: " (toString fc.is_stop_enabled) 'i' _ rfl (by decide),
      leadingSpaces_field_line d "is_shuffle_active: " (toString sh) 'i' _ rfl (by decide),
      leadingSpaces_field_line d "playback_rate: " rate 'p' _ rfl (by decide),
      leadingSpaces_field_line d "playback_status: \"" (stName ++ "\"") 'p' _ rfl (by decide),
      leadingSpaces_field_line d "playback_type: \"" (tyName ++ "\"") 'p' _ rfl (by decide)]
    simp
  · rw [print_media_success_shape s d mp fm ptName ct sz hmp hfm hptN hct hsz]
    simp only [mediaLinesA, mediaLinesB, mediaLinesC, contentTypeLine,
      List.map_append, List.map_cons, List.map_nil, List.map_map]
    rw [leadingSpaces_field_line d "album_artist: \"" (fm.album_artist ++ "\"") 'a' _ rfl (by decide),
      leadingSpaces_field_line d "album_title: \"" (fm.album_title ++ "\"") 'a' _ rfl (by decide),
      leadingSpaces_field_line d "album_track_count: " (toString fm.album_track_count) 'a' _ rfl (by decide),
      leadingSpaces_field_line d "artist: \"" (fm.artist ++ "\"") 'a' _ rfl (by decide),
      leadingSpaces_pure d "genres:" 0 rfl,
      leadingSpaces_field_line d "playback_type: " ptName 'p' _ rfl (by decide),
      leadingSpaces_field_line d "subtitle: " fm.subtitle 's' _ rfl (by decide),
      leadingSpaces_pure d "thumbnail:" 0 rfl,
      leadingSpaces_line d "    content_type: " ct 4 (by decide) rfl,
      leadingSpaces_line d "    size: " (toString sz) 4 (by decide) rfl,
      leadingSpaces_field_line d "title: " fm.title 't' _ rfl (by decide),
      leadingSpaces_field_line d "track_number: " (toString fm.track_number) 't' _ rfl (by decide)]
    have hb : (fun g => leadingSpaces (genreBullet d g)) = fun _ => 4 * d + 5 := by
      funext g; exact leadingSpaces_genreBullet d g
    rw [show leadingSpaces ∘ genreBullet d = fun g => leadingSpaces (genreBullet d g) from rfl, hb,
      map_constant]
    simp [Nat.mul_add]

/-- The 15 fetched control flags, all `false`. -/
def falseFetchedControls : FetchedControls :=
  ⟨false, false, false, false, false, false, false, false, false, false,
   false, false, false, false, false⟩

/-- The fetched form of `popMedia`. -/
def popFetched : FetchedMedia :=
  ⟨"", "", 0, "Artist", ["Pop"], 1, "", spotifyThumb, "Song", 0⟩

/-- Witness for amended C8 at `popSession` and depth 1. -/
theorem indentation_discipline_witness :
    (print_timeline_properties popSession 1).1.map leadingSpaces =
      [4, 4, 4, 4, 4, 4] ∧
    (print_playback_info popSession 1).1.map leadingSpaces =
      [4, 4, 8, 8, 8, 8, 8, 8, 8, 8, 8, 8, 8, 8, 8, 8, 8, 4, 4, 4, 4] ∧
    (print_media_properties popSession 1).1.map leadingSpaces =
      [4, 4, 4, 4, 4, 9, 4, 4, 4, 8, 8, 4, 4] :=
  indentation_discipline popSession 1 zeroTimeline ⟨0, 0, 0, 0, 0, 0⟩
    spotifyInfo 1 "Track" okControls falseFetchedControls true "1.00" 4 "Playing"
    1 "Music" popMedia popFetched "Music" "image/png" 1024
    rfl rfl rfl rfl rfl rfl rfl rfl rfl rfl rfl rfl rfl rfl rfl rfl rfl rfl
